import Mathlib

/-!
# Verification of the SerenityOS builder pipeline (`build_serenity.py`)

A shallow embedding of the build script.  The script is a linear pipeline of
stages driven by `SerenityBuilder.run`; every stage shells out to external
commands and inspects / mutates the filesystem.

Modelling choices:
* Paths are component lists (`List String`), rooted at the working directory
  (the working directory itself is the empty list).
* The filesystem is an association list from paths to entries (directory, or a
  file holding either raw bytes or the list of text chunks written to it).
* External processes are an `Oracle`: a function from command line, working
  directory and current filesystem to an exit status, captured combined
  output, and the filesystem after the process ran.  The oracle also carries
  the process environment, the operator's answer on standard input, the gzip
  codec used by the `gzip` module, and the date/time stamps.
* A computation yields `Res α`: normal return, `sys.exit` with a status code,
  or a raised Python exception (carried as the exception's name).
  `sys.exit` raises `SystemExit`, which `except Exception` does not catch, so
  `exit` propagates through the driver's handler while `raise` is converted.
* The builder's timestamped `log` lines are recorded without the timestamp
  prefix; `print`ed subprocess output is recorded in `printed`.
* Every subprocess launch is recorded in `calls` together with the filesystem
  it was given; `entered` is ghost instrumentation recording, in order, which
  pipeline stages began executing (it has no effect on behaviour).
-/

/-- A filesystem path, as the list of components below the working
directory.  `[]` is the working directory itself. -/
abbrev FPath := List String

/-- Contents of a regular file: raw bytes, or the chunks written by
successive text writes. -/
inductive FileData where
  | bin (bytes : List Nat)
  | text (chunks : List String)
deriving DecidableEq, Repr

/-- A filesystem entry. -/
inductive Entry where
  | dir
  | file (d : FileData)
deriving DecidableEq, Repr

/-- The filesystem: an association list from paths to entries (first match
wins). -/
structure FS where
  entries : List (FPath × Entry)
deriving DecidableEq, Repr

/-- Look up the entry at a path. -/
def FS.lookup (fs : FS) (p : FPath) : Option Entry :=
  (fs.entries.find? (fun e => e.1 == p)).map (fun e => e.2)

/-- `Path.exists()`: some entry (file or directory) is present. -/
def FS.pathExists (fs : FS) (p : FPath) : Bool :=
  (fs.lookup p).isSome

/-- Read a regular file's contents. -/
def FS.readFile (fs : FS) (p : FPath) : Option FileData :=
  match fs.lookup p with
  | some (Entry.file d) => some d
  | _ => none

/-- Read the bytes of a binary file. -/
def FS.readBin (fs : FS) (p : FPath) : Option (List Nat) :=
  match fs.readFile p with
  | some (FileData.bin b) => some b
  | _ => none

/-- `stat().st_size` of a binary file (abstracted: `none` when the entry is
missing or not a binary file). -/
def FS.sizeAt (fs : FS) (p : FPath) : Option Nat :=
  (fs.readBin p).map List.length

/-- Write (create or overwrite) a file. -/
def FS.writeFile (fs : FS) (p : FPath) (d : FileData) : FS :=
  ⟨(p, Entry.file d) :: fs.entries.filter (fun e => !(e.1 == p))⟩

/-- `Path.unlink()` / removal of an entry. -/
def FS.erase (fs : FS) (p : FPath) : FS :=
  ⟨fs.entries.filter (fun e => !(e.1 == p))⟩

/-- The result of one external command, as seen by the script: exit status,
captured combined stdout+stderr, and the filesystem after the command. -/
structure CmdResult where
  exitCode : Nat
  output : String
  fsAfter : FS
deriving DecidableEq, Repr

/-- A recorded subprocess launch: command line, working directory, and the
filesystem state handed to the process. -/
structure Call where
  cmd : String
  cwd : FPath
  fsAtCall : FS
deriving DecidableEq, Repr

/-- The world state threaded through the script. -/
structure St where
  fs : FS
  log : List String
  printed : List String
  calls : List Call
  entered : List String
deriving DecidableEq, Repr

/-- The environment of external collaborators: process executor, process
environment, standard input, the gzip codec, and date/time stamps. -/
structure Oracle where
  exec : String → FPath → FS → CmdResult
  env : List (String × String)
  stdinLine : String
  gzip : List Nat → List Nat
  gunzip : List Nat → List Nat
  today : String
  now : String

/-- Outcome of a fragment of the script: normal return, `sys.exit code`
(i.e. `SystemExit`, not caught by `except Exception`), or a raised
exception identified by name. -/
inductive Res (α : Type) where
  | ok (a : α) (s : St)
  | exit (code : Nat) (s : St)
  | raise (exc : String) (s : St)
deriving DecidableEq, Repr

/-- Sequencing with the Python control flow: `exit` and `raise` propagate. -/
def Res.bind {α β : Type} : Res α → (α → St → Res β) → Res β
  | Res.ok a s, f => f a s
  | Res.exit c s, _ => Res.exit c s
  | Res.raise e s, _ => Res.raise e s

/-- The state a computation ended in, whichever way it ended. -/
def Res.finalSt {α : Type} : Res α → St
  | Res.ok _ s => s
  | Res.exit _ s => s
  | Res.raise _ s => s

/-- The exit status, when the computation ended in `sys.exit`. -/
def Res.exitCode? {α : Type} : Res α → Option Nat
  | Res.exit c _ => some c
  | _ => none

@[simp] theorem Res.finalSt_ok {α : Type} (a : α) (s : St) : (Res.ok a s).finalSt = s := rfl
@[simp] theorem Res.finalSt_exit {α : Type} (c : Nat) (s : St) :
    (Res.exit c s : Res α).finalSt = s := rfl
@[simp] theorem Res.finalSt_raise {α : Type} (e : String) (s : St) :
    (Res.raise e s : Res α).finalSt = s := rfl
@[simp] theorem Res.exitCode?_ok {α : Type} (a : α) (s : St) : (Res.ok a s).exitCode? = none := rfl
@[simp] theorem Res.exitCode?_exit {α : Type} (c : Nat) (s : St) :
    (Res.exit c s : Res α).exitCode? = some c := rfl
@[simp] theorem Res.exitCode?_raise {α : Type} (e : String) (s : St) :
    (Res.raise e s : Res α).exitCode? = none := rfl

def St.addLog (s : St) (m : String) : St := { s with log := s.log ++ [m] }

def St.addPrint (s : St) (t : String) : St := { s with printed := s.printed ++ [t] }

def St.addCall (s : St) (c : Call) : St := { s with calls := s.calls ++ [c] }

def St.setFs (s : St) (fs : FS) : St := { s with fs := fs }

/-- Ghost instrumentation: record that a stage began executing. -/
def St.enter (s : St) (n : String) : St := { s with entered := s.entered ++ [n] }

@[simp] theorem St.addLog_fs (s : St) (m : String) : (s.addLog m).fs = s.fs := rfl
@[simp] theorem St.addLog_entered (s : St) (m : String) : (s.addLog m).entered = s.entered := rfl
@[simp] theorem St.addLog_calls (s : St) (m : String) : (s.addLog m).calls = s.calls := rfl
@[simp] theorem St.addLog_printed (s : St) (m : String) : (s.addLog m).printed = s.printed := rfl
@[simp] theorem St.addPrint_fs (s : St) (t : String) : (s.addPrint t).fs = s.fs := rfl
@[simp] theorem St.addPrint_entered (s : St) (t : String) : (s.addPrint t).entered = s.entered := rfl
@[simp] theorem St.addPrint_calls (s : St) (t : String) : (s.addPrint t).calls = s.calls := rfl
@[simp] theorem St.addPrint_log (s : St) (t : String) : (s.addPrint t).log = s.log := rfl
@[simp] theorem St.addCall_fs (s : St) (c : Call) : (s.addCall c).fs = s.fs := rfl
@[simp] theorem St.addCall_entered (s : St) (c : Call) : (s.addCall c).entered = s.entered := rfl
@[simp] theorem St.addCall_calls (s : St) (c : Call) : (s.addCall c).calls = s.calls ++ [c] := rfl
@[simp] theorem St.addCall_log (s : St) (c : Call) : (s.addCall c).log = s.log := rfl
@[simp] theorem St.setFs_fs (s : St) (fs : FS) : (s.setFs fs).fs = fs := rfl
@[simp] theorem St.setFs_entered (s : St) (fs : FS) : (s.setFs fs).entered = s.entered := rfl
@[simp] theorem St.setFs_calls (s : St) (fs : FS) : (s.setFs fs).calls = s.calls := rfl
@[simp] theorem St.setFs_log (s : St) (fs : FS) : (s.setFs fs).log = s.log := rfl
@[simp] theorem St.enter_fs (s : St) (n : String) : (s.enter n).fs = s.fs := rfl
@[simp] theorem St.enter_entered (s : St) (n : String) : (s.enter n).entered = s.entered ++ [n] := rfl
@[simp] theorem St.enter_calls (s : St) (n : String) : (s.enter n).calls = s.calls := rfl
@[simp] theorem St.enter_log (s : St) (n : String) : (s.enter n).log = s.log := rfl
@[simp] theorem St.addLog_log (s : St) (m : String) : (s.addLog m).log = s.log ++ [m] := rfl
@[simp] theorem St.addPrint_printed (s : St) (t : String) :
    (s.addPrint t).printed = s.printed ++ [t] := rfl
@[simp] theorem St.addCall_printed (s : St) (c : Call) : (s.addCall c).printed = s.printed := rfl
@[simp] theorem St.setFs_printed (s : St) (fs : FS) : (s.setFs fs).printed = s.printed := rfl
@[simp] theorem St.enter_printed (s : St) (n : String) : (s.enter n).printed = s.printed := rfl

/-- Round `num / den` half-to-even to an integer (both arguments positive
scaled naturals). -/
def natRoundHalfEven (num den : Nat) : Nat :=
  let q := num / den
  let r := num % den
  if 2 * r > den then q + 1
  else if 2 * r < den then q
  else if q % 2 = 0 then q else q + 1

/-- Render `bytes / (1024*1024)` with two decimals, matching CPython's
`f"{x:.2f}"` on the exact binary value (exact for sizes below 2^53). -/
def fmtMB (bytes : Nat) : String :=
  let h := natRoundHalfEven (bytes * 100) 1048576
  let whole := h / 100
  let frac := h % 100
  toString whole ++ "." ++ (if frac < 10 then "0" else "") ++ toString frac

/-- Render `(1 - comp/orig) * 100` with one decimal (half-even on the exact
rational), matching the script's `{compression_ratio:.1f}` display. -/
def fmtRatio (orig comp : Nat) : String :=
  if orig = 0 then "DIV0"
  else if comp ≤ orig then
    let t := natRoundHalfEven ((orig - comp) * 1000) orig
    toString (t / 10) ++ "." ++ toString (t % 10)
  else
    let t := natRoundHalfEven ((comp - orig) * 1000) orig
    "-" ++ toString (t / 10) ++ "." ++ toString (t % 10)

/-! ## Paths used by the script -/

/-- Render a path for log messages; the absolute prefix of the working
directory is abstracted as `<work>`. -/
def showPath (p : FPath) : String :=
  String.intercalate "/" ("<work>" :: p)

/-- `Path.name`: the final path component. -/
def pathName (p : FPath) : String := p.getLastD ""

/-- `Path.stem` of a file name: the name without its last suffix. -/
def nameStem (n : String) : String :=
  let parts := n.splitOn "."
  if parts.length ≤ 1 then n else String.intercalate "." parts.dropLast

/-- `Path.stem`: final component without its last suffix. -/
def pathStem (p : FPath) : String := nameStem (pathName p)

/-- `self.serenity_dir = self.work_dir / "serenity"`. -/
def serenityDir : FPath := ["serenity"]

/-- `self.build_dir = self.serenity_dir / "Build" / "x86_64"`. -/
def buildDir : FPath := ["serenity", "Build", "x86_64"]

/-- `self.build_dir / "grub_uefi_disk_image"`. -/
def grubImagePath : FPath := ["serenity", "Build", "x86_64", "grub_uefi_disk_image"]

/-- `f"serenity-x86_64-grub-uefi-{datetime.now().strftime('%Y%m%d')}.img"`. -/
def outputName (today : String) : String :=
  "serenity-x86_64-grub-uefi-" ++ today ++ ".img"

/-- `self.work_dir / output_name`. -/
def outputImagePath (today : String) : FPath := [outputName today]

/-- `self.work_dir / f"{output_name}.gz"`. -/
def compressedImagePath (today : String) : FPath := [outputName today ++ ".gz"]

/-- `self.work_dir / "build-info.txt"`. -/
def infoFilePath : FPath := ["build-info.txt"]

/-- The clone command of `clone_repository`. -/
def gitCloneCmd : String :=
  "git clone --depth 1 https://github.com/SerenityOS/serenity.git"

/-- The dependency list of `install_dependencies`. -/
def depList : List String :=
  ["build-essential", "cmake", "curl", "libmpfr-dev", "libmpc-dev",
   "libgmp-dev", "e2fsprogs", "ninja-build", "qemu-system-gui",
   "qemu-system-x86", "qemu-utils", "ccache", "rsync", "unzip",
   "texinfo", "libssl-dev", "zlib1g-dev",
   "gcc-14", "g++-14",
   "parted", "grub-efi-amd64-bin", "grub2-common"]

/-- `f"sudo apt-get install -y {' '.join(deps)}"`. -/
def aptInstallCmd : String :=
  "sudo apt-get install -y " ++ String.intercalate " " depList

/-- The image-assembly (packaging) command of `build_grub_uefi_image`. -/
def ninjaCmd : String := "ninja grub-uefi-image"

/-- Python truthiness of `os.environ.get(k)`: present with a non-empty
value. -/
def envTruthy (env : List (String × String)) (k : String) : Bool :=
  match env.lookup k with
  | some v => !(v == "")
  | none => false

/-- `text.splitlines()[0]`: `none` models the `IndexError` on empty output. -/
def firstLine (t : String) : Option String :=
  if t = "" then none else some ((t.splitOn "\n").getD 0 "")

/-! ## The script itself (`SerenityBuilder`'s methods) -/

/-- `SerenityBuilder.run_command`: log the command, run it synchronously with
stderr merged into stdout, print the captured output and return on exit
status zero; on non-zero status log the status, print the captured output and
`sys.exit(1)`. -/
def run_command (o : Oracle) (cmd : String) (cwd : FPath) (s : St) : Res String :=
  let s := s.addLog ("Running: " ++ cmd)
  let r := o.exec cmd cwd s.fs
  let s := (s.addCall ⟨cmd, cwd, s.fs⟩).setFs r.fsAfter
  if r.exitCode = 0 then
    Res.ok r.output (s.addPrint r.output)
  else
    Res.exit 1
      (((s.addLog ("ERROR: Command failed with exit code " ++ toString r.exitCode))).addPrint r.output)

/-- `SerenityBuilder.clone_repository`: skip when the source directory
exists, otherwise shallow-clone via the command runner. -/
def clone_repository (o : Oracle) (s : St) : Res PUnit :=
  let s := (s.enter "clone").addLog "Cloning SerenityOS repository..."
  if s.fs.pathExists serenityDir then
    Res.ok ⟨⟩ (s.addLog "Repository already exists, skipping clone")
  else
    (run_command o gitCloneCmd [] s).bind fun _ s =>
      Res.ok ⟨⟩ (s.addLog "Repository cloned successfully")

/-- Python's `str.lower()` on the response read from standard input
(ASCII case mapping, defined on the character list so it computes by
reduction). -/
def strLower (t : String) : String := ⟨t.data.map Char.toLower⟩

/-- `SerenityBuilder.install_dependencies`: skip under a truthy `CI`
environment variable; otherwise refresh the package index, install the
dependency list, then probe `gcc-14 --version` and, when the probe fails,
ask the operator whether to continue (`sys.exit(1)` unless the lowercased
answer is `"y"`). -/
def install_dependencies (o : Oracle) (s : St) : Res PUnit :=
  let s := (s.enter "deps").addLog "Installing system dependencies..."
  if envTruthy o.env "CI" then
    Res.ok ⟨⟩ ((s.addLog "Running in CI environment - skipping dependency installation").addLog
      "Dependencies should be installed by GitHub Actions workflow")
  else
    let s := s.addLog "Updating package lists..."
    (run_command o "sudo apt-get update" [] s).bind fun _ s =>
      let s := s.addLog ("Installing " ++ toString depList.length ++ " packages...")
      (run_command o aptInstallCmd [] s).bind fun _ s =>
        let s := s.addLog "Verifying GCC 14 installation..."
        let pr := o.exec "gcc-14 --version" [] s.fs
        let s := (s.addCall ⟨"gcc-14 --version", [], s.fs⟩).setFs pr.fsAfter
        if pr.exitCode = 0 then
          match firstLine pr.output with
          | none => Res.raise "IndexError" s
          | some l =>
              Res.ok ⟨⟩ ((s.addLog ("GCC 14 verified: " ++ l)).addLog
                "Dependencies installed successfully")
        else
          let s := (s.addLog
            "WARNING: GCC 14 not found. SerenityOS requires GCC 14 or Clang 17+").addLog
            "You may need to install from ubuntu-toolchain-r/test PPA"
          if strLower o.stdinLine = "y" then
            Res.ok ⟨⟩ (s.addLog "Dependencies installed successfully")
          else
            Res.exit 1 s

/-- `SerenityBuilder.build_toolchain`: run the external toolchain-build
driver in the source directory. -/
def build_toolchain (o : Oracle) (s : St) : Res PUnit :=
  let s := ((s.enter "toolchain").addLog "Building/updating SerenityOS toolchain...").addLog
    "This may take a while on first run..."
  (run_command o "./Toolchain/BuildIt.sh" serenityDir s).bind fun _ s =>
    Res.ok ⟨⟩ (s.addLog "Toolchain ready")

/-- `SerenityBuilder.build_serenity`: run the project's build-and-install
driver (`Meta/serenity.sh image x86_64`) in the source directory. -/
def build_serenity (o : Oracle) (s : St) : Res PUnit :=
  let s := ((s.enter "artifact").addLog "Building SerenityOS...").addLog
    "Running: Meta/serenity.sh image x86_64"
  (run_command o "./Meta/serenity.sh image x86_64" serenityDir s).bind fun _ s =>
    Res.ok ⟨⟩ (s.addLog "SerenityOS build and install completed successfully")

/-- `SerenityBuilder.build_grub_uefi_image`: require the build directory,
delete a stale image, run the packaging command, then verify the image
exists and log its size. -/
def build_grub_uefi_image (o : Oracle) (s : St) : Res PUnit :=
  let s := (s.enter "assemble").addLog "Building GRUB UEFI disk image..."
  if s.fs.pathExists buildDir then
    let s :=
      if s.fs.pathExists grubImagePath then
        ((s.addLog "Removing existing GRUB UEFI image...").setFs (s.fs.erase grubImagePath))
      else s
    (run_command o ninjaCmd buildDir s).bind fun _ s =>
      if s.fs.pathExists grubImagePath then
        match s.fs.sizeAt grubImagePath with
        | none => Res.raise "StatError" s
        | some n =>
            Res.ok ⟨⟩ (s.addLog ("GRUB UEFI image built successfully (" ++ fmtMB n ++ " MB)"))
      else
        Res.exit 1 (s.addLog "ERROR: GRUB UEFI image was not created!")
  else
    Res.exit 1 (s.addLog ("ERROR: Build directory not found: " ++ showPath buildDir))

/-- `SerenityBuilder.compress_image`: require the image, log its size, copy
it to a date-stamped name in the working directory, gzip the copy at level 9,
delete the copy, then compute the size reduction (a `ZeroDivisionError` when
the original size is zero) and return the compressed path. -/
def compress_image (o : Oracle) (s : St) : Res FPath :=
  let s := (s.enter "compress").addLog "Compressing disk image..."
  if s.fs.pathExists grubImagePath then
    match s.fs.readBin grubImagePath with
    | none => Res.raise "IsADirectoryError" s
    | some bytes =>
        let s := s.addLog ("Original image size: " ++ fmtMB bytes.length ++ " MB")
        let s := s.addLog ("Copying image to " ++ showPath (outputImagePath o.today))
        let s := s.setFs (s.fs.writeFile (outputImagePath o.today) (FileData.bin bytes))
        let s := s.addLog ("Compressing to " ++ showPath (compressedImagePath o.today) ++
          " (this may take a moment)...")
        match s.fs.readBin (outputImagePath o.today) with
        | none => Res.raise "IOError" s
        | some copyBytes =>
            let s := s.setFs (s.fs.writeFile (compressedImagePath o.today)
              (FileData.bin (o.gzip copyBytes)))
            let s := s.setFs (s.fs.erase (outputImagePath o.today))
            match s.fs.sizeAt (compressedImagePath o.today) with
            | none => Res.raise "StatError" s
            | some csize =>
                if bytes.length = 0 then
                  Res.raise "ZeroDivisionError" s
                else
                  let s := s.addLog ("Compressed image size: " ++ fmtMB csize ++ " MB (" ++
                    fmtRatio bytes.length csize ++ "% reduction)")
                  let s := s.addLog ("Output file: " ++ showPath (compressedImagePath o.today))
                  Res.ok (compressedImagePath o.today) s
  else
    Res.exit 1 (s.addLog ("ERROR: Disk image not found: " ++ showPath grubImagePath))

/-- The exact sequence of chunks `create_artifact_info` writes to
`build-info.txt`. -/
def manifestChunks (now name stem : String) (sizeBytes : Nat) : List String :=
  let sep := String.mk (List.replicate 60 '=')
  ["SerenityOS Build Information\n",
   sep ++ "\n",
   "Build Date: " ++ now ++ "\n",
   "Architecture: x86_64\n",
   "Toolchain: GNU\n",
   "Bootloader: GRUB UEFI\n",
   "Image File: " ++ name ++ "\n",
   "Image Size: " ++ fmtMB sizeBytes ++ " MB\n",
   "\n" ++ sep ++ "\n",
   "Usage Instructions:\n",
   sep ++ "\n\n",
   "1. Extract the compressed image:\n",
   "   gunzip " ++ name ++ "\n\n",
   "2. Write to USB drive (Linux):\n",
   "   sudo dd if=" ++ stem ++ " of=/dev/sdX bs=64M status=progress && sync\n",
   "   (Replace /dev/sdX with your USB device)\n\n",
   "3. Boot with QEMU (macOS example):\n",
   "   qemu-system-x86_64 -m 2G \\\n",
   "     -drive if=pflash,format=raw,readonly=on,file=/opt/homebrew/share/qemu/edk2-x86_64-code.fd \\\n",
   "     -drive file=" ++ stem ++ ",format=raw\n\n",
   "4. Or use with VirtualBox/VMware (configure as UEFI boot)\n\n",
   sep ++ "\n",
   "Hardware Requirements:\n",
   sep ++ "\n",
   "- Minimum 256 MB RAM (2GB+ recommended)\n",
   "- x86_64 CPU\n",
   "- >= 2 GB storage (SATA/NVMe/USB)\n",
   "- UEFI firmware support\n\n",
   sep ++ "\n",
   "Default Credentials:\n",
   sep ++ "\n",
   "Username: anon\n",
   "Password: foo\n",
   "(anon user can become root without password by default)\n"]

/-- `SerenityBuilder.create_artifact_info`: open `build-info.txt` for
writing (truncating any previous contents) and write the report, whose size
field comes from `image_path.stat().st_size` (the source stats the path
mid-write; the model reads the size first, observable only when the stat
raises). -/
def create_artifact_info (o : Oracle) (imagePath : FPath) (s : St) : Res PUnit :=
  let s := s.enter "manifest"
  match s.fs.sizeAt imagePath with
  | none => Res.raise "FileNotFoundError" s
  | some n =>
      let s := s.setFs (s.fs.writeFile infoFilePath
        (FileData.text (manifestChunks o.now (pathName imagePath) (pathStem imagePath) n)))
      Res.ok ⟨⟩ (s.addLog ("Created build info file: " ++ showPath infoFilePath))

/-- The banner / separator line logged by `run` (`"=" * 60`). -/
def sepLine : String := String.mk (List.replicate 60 '=')

/-- The suffix of the driver from Image Assembly on: assemble, compress,
emit the manifest, then log completion. -/
def tailFromAssemble (o : Oracle) (s : St) : Res PUnit :=
  (build_grub_uefi_image o s).bind fun _ s =>
  (compress_image o s).bind fun p s =>
  (create_artifact_info o p s).bind fun _ s =>
  Res.ok ⟨⟩ (((((s.addLog sepLine).addLog "Build completed successfully!").addLog
    ("Artifact ready: " ++ showPath p)).addLog
    "See build-info.txt for usage instructions").addLog sepLine)

/-- The body of `SerenityBuilder.run`'s `try` block: the seven stages in
fixed order, bracketed by banner and completion log lines. -/
def pipeline (o : Oracle) (s : St) : Res PUnit :=
  let s := ((s.addLog sepLine).addLog "SerenityOS Builder Starting").addLog sepLine
  (clone_repository o s).bind fun _ s =>
  (install_dependencies o s).bind fun _ s =>
  (build_toolchain o s).bind fun _ s =>
  (build_serenity o s).bind fun _ s =>
  tailFromAssemble o s

/-- `SerenityBuilder.run`: run the pipeline; `except Exception` turns a
raised exception into a `FATAL ERROR` log line and `sys.exit(1)`, while
`SystemExit` (from `sys.exit` inside a stage) propagates unchanged. -/
def run (o : Oracle) (s : St) : Res PUnit :=
  match pipeline o s with
  | Res.raise e s' => Res.exit 1 (s'.addLog ("FATAL ERROR: " ++ e))
  | r => r

/-! ## Shared concrete instances for witnesses -/

/-- The empty initial world. -/
def st0 : St := ⟨⟨[]⟩, [], [], [], []⟩

/-- An executor for which every command succeeds, leaves the filesystem
unchanged and prints `"out"`. -/
def execAllOk : String → FPath → FS → CmdResult :=
  fun _ _ fs => ⟨0, "out", fs⟩

/-- An executor for which every command fails with status 1. -/
def execAllFail : String → FPath → FS → CmdResult :=
  fun _ _ fs => ⟨1, "boom", fs⟩

/-! ## C2: the Command Runner contract -/

/-- Equation for `run_command` when the subprocess exits with status 0. -/
theorem run_command_ok (o : Oracle) (cmd : String) (cwd : FPath) (s : St)
    (h : (o.exec cmd cwd s.fs).exitCode = 0) :
    run_command o cmd cwd s = Res.ok (o.exec cmd cwd s.fs).output
      ((((s.addLog ("Running: " ++ cmd)).addCall ⟨cmd, cwd, s.fs⟩).setFs
        (o.exec cmd cwd s.fs).fsAfter).addPrint (o.exec cmd cwd s.fs).output) := by
  simp only [run_command, St.addLog_fs]
  rw [if_pos h]

/-- Equation for `run_command` when the subprocess exits with a non-zero
status. -/
theorem run_command_fail (o : Oracle) (cmd : String) (cwd : FPath) (s : St)
    (h : (o.exec cmd cwd s.fs).exitCode ≠ 0) :
    run_command o cmd cwd s = Res.exit 1
      (((((s.addLog ("Running: " ++ cmd)).addCall ⟨cmd, cwd, s.fs⟩).setFs
        (o.exec cmd cwd s.fs).fsAfter).addLog
        ("ERROR: Command failed with exit code " ++
          toString (o.exec cmd cwd s.fs).exitCode)).addPrint
        (o.exec cmd cwd s.fs).output) := by
  simp only [run_command, St.addLog_fs]
  rw [if_neg h]

/-- **C2.** For every invocation of `run_command`: when the subprocess exits
with status zero, the captured combined output is printed and control
returns to the caller with that output; when it exits non-zero, the runner
logs the exit status, prints the captured output, and terminates the program
immediately with exit status 1.  In both cases exactly one subprocess is
launched (no retry). -/
theorem claim_C2 (o : Oracle) (cmd : String) (cwd : FPath) (s : St) :
    ((o.exec cmd cwd s.fs).exitCode = 0 →
      ∃ s', run_command o cmd cwd s = Res.ok (o.exec cmd cwd s.fs).output s' ∧
        s'.printed = s.printed ++ [(o.exec cmd cwd s.fs).output] ∧
        s'.calls = s.calls ++ [⟨cmd, cwd, s.fs⟩] ∧
        s'.fs = (o.exec cmd cwd s.fs).fsAfter) ∧
    ((o.exec cmd cwd s.fs).exitCode ≠ 0 →
      ∃ s', run_command o cmd cwd s = Res.exit 1 s' ∧
        ("ERROR: Command failed with exit code " ++
          toString (o.exec cmd cwd s.fs).exitCode) ∈ s'.log ∧
        s'.printed = s.printed ++ [(o.exec cmd cwd s.fs).output] ∧
        s'.calls = s.calls ++ [⟨cmd, cwd, s.fs⟩] ∧
        s'.fs = (o.exec cmd cwd s.fs).fsAfter) := by
  constructor
  · intro h
    exact ⟨_, run_command_ok o cmd cwd s h, by simp, by simp, by simp⟩
  · intro h
    exact ⟨_, run_command_fail o cmd cwd s h, by simp, by simp, by simp, by simp⟩

/-- A concrete oracle whose commands all succeed (shared by witnesses). -/
def oAllOk : Oracle := ⟨execAllOk, [], "", id, id, "20250101", "now"⟩

/-- A concrete oracle whose commands all fail (shared by witnesses). -/
def oAllFail : Oracle := ⟨execAllFail, [], "", id, id, "20250101", "now"⟩

/-- Witness for C2 at concrete inputs: a succeeding command prints its
captured output and returns, a failing one exits with status 1. -/
theorem claim_C2_witness :
    ((run_command oAllOk "true" [] st0).finalSt.printed = ["out"]) ∧
    (Res.exitCode? (run_command oAllFail "false" [] st0) = some 1) := by
  constructor
  · obtain ⟨s', h1, h2, -, -⟩ := (claim_C2 oAllOk "true" [] st0).1 rfl
    rw [h1]
    simpa [st0] using h2
  · obtain ⟨s', h1, -⟩ := (claim_C2 oAllFail "false" [] st0).2 (by decide)
    rw [h1]
    rfl

/-! ## C6: idempotence of Source Acquisition -/

/-- A concrete world in which the source directory already exists. -/
def stSer : St := ⟨⟨[(serenityDir, Entry.dir)]⟩, [], [], [], []⟩

/-- **C6.** When the source directory exists, `clone_repository` logs and
returns without launching any subprocess and without failing; running it
twice launches no clone either.  When the directory does not exist, the
clone command is launched through the command runner. -/
theorem claim_C6 (o : Oracle) (s : St) :
    (s.fs.pathExists serenityDir = true →
      ∃ s', clone_repository o s = Res.ok ⟨⟩ s' ∧ s'.calls = s.calls ∧ s'.fs = s.fs) ∧
    (s.fs.pathExists serenityDir = true →
      ∃ s', (clone_repository o s).bind (fun _ t => clone_repository o t) = Res.ok ⟨⟩ s' ∧
        s'.calls = s.calls ∧ s'.fs = s.fs) ∧
    (s.fs.pathExists serenityDir = false →
      (Res.finalSt (clone_repository o s)).calls = s.calls ++ [⟨gitCloneCmd, [], s.fs⟩]) := by
  refine ⟨?_, ?_, ?_⟩
  · intro h
    exact ⟨((s.enter "clone").addLog "Cloning SerenityOS repository...").addLog
      "Repository already exists, skipping clone",
      by simp [clone_repository, h], by simp, by simp⟩
  · intro h
    exact ⟨(((((s.enter "clone").addLog "Cloning SerenityOS repository...").addLog
        "Repository already exists, skipping clone").enter "clone").addLog
        "Cloning SerenityOS repository...").addLog "Repository already exists, skipping clone",
      by simp [clone_repository, Res.bind, h], by simp, by simp⟩
  · intro h
    simp only [clone_repository, St.enter_fs, St.addLog_fs, h, Bool.false_eq_true,
      if_false, reduceIte]
    by_cases hc : (o.exec gitCloneCmd [] s.fs).exitCode = 0
    · rw [run_command_ok o gitCloneCmd [] ((s.enter "clone").addLog
        "Cloning SerenityOS repository...") (by simpa using hc)]
      simp [Res.bind, Res.finalSt]
    · rw [run_command_fail o gitCloneCmd [] ((s.enter "clone").addLog
        "Cloning SerenityOS repository...") (by simpa using hc)]
      simp [Res.bind, Res.finalSt]

/-- Witness for C6: with the source tree present, two consecutive stage runs
launch no subprocess; with it absent, exactly the clone command is
launched. -/
theorem claim_C6_witness :
    (Res.finalSt ((clone_repository oAllOk stSer).bind
      (fun _ t => clone_repository oAllOk t))).calls = [] ∧
    (Res.finalSt (clone_repository oAllOk st0)).calls = [⟨gitCloneCmd, [], st0.fs⟩] := by
  constructor
  · obtain ⟨s', h1, h2, -⟩ := (claim_C6 oAllOk stSer).2.1 rfl
    rw [h1]
    simpa [stSer] using h2
  · have h3 := (claim_C6 oAllOk st0).2.2 rfl
    simpa [st0] using h3

/-! ## C7: the CI skip of Environment Preparation

The stage tests Python truthiness of `os.environ.get('CI')`, so the
variable being *present* is not enough: `CI=""` is present yet falsy, and
the stage then runs the package commands.  The skip happens exactly when
`CI` is present with a non-empty value. -/

/-- Oracle whose process environment has `CI` present but empty. -/
def oCIempty : Oracle := ⟨execAllOk, [("CI", "")], "", id, id, "20250101", "now"⟩

/-- Oracle whose process environment has `CI` set to a non-empty value and
whose commands all fail. -/
def oCItrue : Oracle := ⟨execAllFail, [("CI", "true")], "", id, id, "20250101", "now"⟩

/-- **C7, counterexample.** With the CI variable present but set to the
empty string, Environment Preparation is not skipped: it launches the
package-index refresh and the package installation. -/
theorem claim_C7_counterexample :
    (List.lookup "CI" oCIempty.env).isSome = true ∧
    (Res.finalSt (install_dependencies oCIempty st0)).calls.map Call.cmd =
      ["sudo apt-get update", aptInstallCmd, "gcc-14 --version"] := by
  constructor
  · rfl
  · rfl

/-- **C7, amended.** For every process environment in which the CI variable
is present *with a non-empty value*, Environment Preparation is skipped
entirely: it launches no subprocess, leaves the filesystem unchanged, and
returns after logging. -/
theorem claim_C7 (o : Oracle) (s : St) (v : String)
    (h1 : List.lookup "CI" o.env = some v) (h2 : v ≠ "") :
    ∃ s', install_dependencies o s = Res.ok ⟨⟩ s' ∧ s'.calls = s.calls ∧ s'.fs = s.fs ∧
      s'.log = s.log ++ ["Installing system dependencies...",
        "Running in CI environment - skipping dependency installation",
        "Dependencies should be installed by GitHub Actions workflow"] := by
  have ht : envTruthy o.env "CI" = true := by
    simp only [envTruthy, h1]
    simp [h2]
  exact ⟨(((s.enter "deps").addLog "Installing system dependencies...").addLog
      "Running in CI environment - skipping dependency installation").addLog
      "Dependencies should be installed by GitHub Actions workflow",
    by simp [install_dependencies, ht], by simp, by simp, by simp⟩

/-- Witness for the amended C7: with `CI=true` and an oracle whose commands
would all fail, the stage still succeeds and launches nothing. -/
theorem claim_C7_witness :
    (Res.finalSt (install_dependencies oCItrue st0)).calls = [] := by
  obtain ⟨s', h1, h2, -, -⟩ := claim_C7 oCItrue st0 "true" rfl (by decide)
  rw [h1]
  simpa [st0] using h2

/-! ## C10: the compiler-version prompt -/

/-- **C10.** On the soft-fail path (CI falsy, both package commands succeed,
the `gcc-14 --version` probe fails), the pipeline continues exactly when the
lowercased operator response is the single character `y` (i.e. the response
is `y` or `Y`); any other response terminates immediately with exit
status 1. -/
theorem claim_C10 (o : Oracle) (s : St)
    (h1 : envTruthy o.env "CI" = false)
    (hu : ∀ fs, (o.exec "sudo apt-get update" [] fs).exitCode = 0)
    (hi : ∀ fs, (o.exec aptInstallCmd [] fs).exitCode = 0)
    (hp : ∀ fs, (o.exec "gcc-14 --version" [] fs).exitCode ≠ 0) :
    (strLower o.stdinLine = "y" → ∃ s', install_dependencies o s = Res.ok ⟨⟩ s') ∧
    (strLower o.stdinLine ≠ "y" → ∃ s', install_dependencies o s = Res.exit 1 s') := by
  constructor
  · intro hy
    exact ⟨_, by
      simp only [install_dependencies, h1, Bool.false_eq_true, if_false,
        run_command_ok, run_command_fail, Res.bind, hu, hi, hp, St.addLog_fs, St.setFs_fs,
        St.addCall_fs, St.enter_fs, St.addPrint_fs, ne_eq, not_false_iff, reduceIte, hy]
      rfl⟩
  · intro hy
    exact ⟨_, by
      simp only [install_dependencies, h1, Bool.false_eq_true, if_false,
        run_command_ok, run_command_fail, Res.bind, hu, hi, hp, St.addLog_fs, St.setFs_fs,
        St.addCall_fs, St.enter_fs, St.addPrint_fs, ne_eq, not_false_iff, reduceIte, hy]
      rfl⟩

/-- The install command differs from the compiler probe command. -/
theorem aptInstallCmd_ne_probe : aptInstallCmd ≠ "gcc-14 --version" := by decide

/-- Executor for which only the `gcc-14 --version` probe fails. -/
def execProbeFail : String → FPath → FS → CmdResult :=
  fun cmd _ fs => if cmd = "gcc-14 --version" then ⟨1, "", fs⟩ else ⟨0, "out", fs⟩

/-- Oracle reaching the compiler prompt with a given operator response. -/
def oPrompt (ans : String) : Oracle := ⟨execProbeFail, [], ans, id, id, "20250101", "now"⟩

/-- Witness for C10 at the concrete responses named by the claim: `y` and
`Y` continue; `yes`, the empty response, and `n` exit with status 1. -/
theorem claim_C10_witness :
    Res.exitCode? (install_dependencies (oPrompt "y") st0) = none ∧
    Res.exitCode? (install_dependencies (oPrompt "Y") st0) = none ∧
    Res.exitCode? (install_dependencies (oPrompt "yes") st0) = some 1 ∧
    Res.exitCode? (install_dependencies (oPrompt "") st0) = some 1 ∧
    Res.exitCode? (install_dependencies (oPrompt "n") st0) = some 1 := by
  refine ⟨?_, ?_, ?_, ?_, ?_⟩
  · obtain ⟨s', hs⟩ := (claim_C10 (oPrompt "y") st0 rfl (fun fs => by simp [oPrompt, execProbeFail])
      (fun fs => by simp [oPrompt, execProbeFail, aptInstallCmd_ne_probe])
      (fun fs => by simp [oPrompt, execProbeFail])).1 (by decide)
    rw [hs]; rfl
  · obtain ⟨s', hs⟩ := (claim_C10 (oPrompt "Y") st0 rfl (fun fs => by simp [oPrompt, execProbeFail])
      (fun fs => by simp [oPrompt, execProbeFail, aptInstallCmd_ne_probe])
      (fun fs => by simp [oPrompt, execProbeFail])).1 (by decide)
    rw [hs]; rfl
  · obtain ⟨s', hs⟩ := (claim_C10 (oPrompt "yes") st0 rfl (fun fs => by simp [oPrompt, execProbeFail])
      (fun fs => by simp [oPrompt, execProbeFail, aptInstallCmd_ne_probe])
      (fun fs => by simp [oPrompt, execProbeFail])).2 (by decide)
    rw [hs]; rfl
  · obtain ⟨s', hs⟩ := (claim_C10 (oPrompt "") st0 rfl (fun fs => by simp [oPrompt, execProbeFail])
      (fun fs => by simp [oPrompt, execProbeFail, aptInstallCmd_ne_probe])
      (fun fs => by simp [oPrompt, execProbeFail])).2 (by decide)
    rw [hs]; rfl
  · obtain ⟨s', hs⟩ := (claim_C10 (oPrompt "n") st0 rfl (fun fs => by simp [oPrompt, execProbeFail])
      (fun fs => by simp [oPrompt, execProbeFail, aptInstallCmd_ne_probe])
      (fun fs => by simp [oPrompt, execProbeFail])).2 (by decide)
    rw [hs]; rfl

/-! ## Filesystem lemmas -/

theorem FS.lookup_writeFile_self (fs : FS) (p : FPath) (d : FileData) :
    (fs.writeFile p d).lookup p = some (Entry.file d) := by
  simp [FS.lookup, FS.writeFile]

theorem List.find?_filter_ne {l : List (FPath × Entry)} {p q : FPath} (h : p ≠ q) :
    (l.filter (fun e => !(e.1 == q))).find? (fun e => e.1 == p) =
      l.find? (fun e => e.1 == p) := by
  induction l with
  | nil => rfl
  | cons e l ih =>
      rw [List.filter_cons]
      by_cases hp : e.1 = p
      · have hq : (e.1 == q) = false := beq_eq_false_iff_ne.mpr (hp ▸ h)
        rw [hq]
        simp only [Bool.not_false, if_true]
        rw [List.find?_cons_of_pos _ (by simp [hp]), List.find?_cons_of_pos _ (by simp [hp])]
      · by_cases hq : e.1 = q
        · have hqt : (e.1 == q) = true := by simp [hq]
          rw [hqt]
          simp only [Bool.not_true, Bool.false_eq_true, if_false]
          rw [ih, List.find?_cons_of_neg _ (by simp [hp])]
        · have hq' : (e.1 == q) = false := beq_eq_false_iff_ne.mpr hq
          rw [hq']
          simp only [Bool.not_false, if_true]
          rw [List.find?_cons_of_neg _ (by simp [hp]), List.find?_cons_of_neg _ (by simp [hp]),
            ih]

theorem FS.lookup_writeFile_ne (fs : FS) {p q : FPath} (d : FileData) (h : p ≠ q) :
    (fs.writeFile q d).lookup p = fs.lookup p := by
  have hqp : ((q, Entry.file d).1 == p) = false := beq_eq_false_iff_ne.mpr (Ne.symm h)
  simp only [FS.lookup, FS.writeFile]
  rw [List.find?_cons_of_neg _ (by simp at hqp ⊢; exact hqp), List.find?_filter_ne h]

theorem FS.lookup_erase_self (fs : FS) (p : FPath) :
    (fs.erase p).lookup p = none := by
  simp only [FS.lookup, FS.erase]
  rw [List.find?_eq_none.mpr]
  · rfl
  · intro e he
    have := (List.mem_filter.mp he).2
    simpa using this

theorem FS.lookup_erase_ne (fs : FS) {p q : FPath} (h : p ≠ q) :
    (fs.erase q).lookup p = fs.lookup p := by
  simp [FS.lookup, FS.erase, List.find?_filter_ne h]

theorem FS.readFile_writeFile_self (fs : FS) (p : FPath) (d : FileData) :
    (fs.writeFile p d).readFile p = some d := by
  simp [FS.readFile, FS.lookup_writeFile_self]

theorem FS.readFile_writeFile_ne (fs : FS) {p q : FPath} (d : FileData) (h : p ≠ q) :
    (fs.writeFile q d).readFile p = fs.readFile p := by
  simp [FS.readFile, FS.lookup_writeFile_ne fs d h]

theorem FS.readFile_erase_ne (fs : FS) {p q : FPath} (h : p ≠ q) :
    (fs.erase q).readFile p = fs.readFile p := by
  simp [FS.readFile, FS.lookup_erase_ne fs h]

theorem FS.pathExists_erase_self (fs : FS) (p : FPath) :
    (fs.erase p).pathExists p = false := by
  simp [FS.pathExists, FS.lookup_erase_self]

theorem FS.pathExists_writeFile_self (fs : FS) (p : FPath) (d : FileData) :
    (fs.writeFile p d).pathExists p = true := by
  simp [FS.pathExists, FS.lookup_writeFile_self]

theorem FS.readBin_writeFile_self (fs : FS) (p : FPath) (b : List Nat) :
    (fs.writeFile p (FileData.bin b)).readBin p = some b := by
  simp [FS.readBin, FS.readFile_writeFile_self]

/-! ## Path disequalities -/

theorem outputName_ne_gz (t : String) : outputName t ≠ outputName t ++ ".gz" := by
  intro h
  have hl := congrArg String.length h
  rw [String.length_append] at hl
  have h3 : ".gz".length = 3 := rfl
  rw [h3] at hl
  omega

theorem outputImagePath_ne_compressed (t : String) :
    outputImagePath t ≠ compressedImagePath t := by
  intro hcon
  have h1 : outputName t = outputName t ++ ".gz" := by
    injection hcon
  exact outputName_ne_gz t h1

theorem grubImagePath_ne_outputImagePath (t : String) :
    grubImagePath ≠ outputImagePath t := by
  intro hcon
  injection hcon with h1 h2
  exact List.noConfusion h2

theorem grubImagePath_ne_compressed (t : String) :
    grubImagePath ≠ compressedImagePath t := by
  intro hcon
  injection hcon with h1 h2
  exact List.noConfusion h2

/-! ## C8: manifest emission -/

/-- **C8.** Whatever the prior contents of `build-info.txt` (the state `s`
is arbitrary), `create_artifact_info` overwrites it so that afterwards it
holds exactly the report chunks — which include the artifact's filename, a
size field computed from the artifact's actual size on disk at emission
time (hypothesis `h`), and the fixed usage-instructions and
default-credentials blocks. -/
theorem claim_C8 (o : Oracle) (s : St) (p : FPath) (n : Nat)
    (h : s.fs.sizeAt p = some n) :
    ∃ s', create_artifact_info o p s = Res.ok ⟨⟩ s' ∧
      s'.fs.readFile infoFilePath =
        some (FileData.text (manifestChunks o.now (pathName p) (pathStem p) n)) ∧
      ("Image File: " ++ pathName p ++ "\n") ∈
        manifestChunks o.now (pathName p) (pathStem p) n ∧
      ("Image Size: " ++ fmtMB n ++ " MB\n") ∈
        manifestChunks o.now (pathName p) (pathStem p) n ∧
      "Usage Instructions:\n" ∈ manifestChunks o.now (pathName p) (pathStem p) n ∧
      "Default Credentials:\n" ∈ manifestChunks o.now (pathName p) (pathStem p) n ∧
      "Username: anon\n" ∈ manifestChunks o.now (pathName p) (pathStem p) n ∧
      "Password: foo\n" ∈ manifestChunks o.now (pathName p) (pathStem p) n := by
  refine ⟨((s.enter "manifest").setFs (s.fs.writeFile infoFilePath
      (FileData.text (manifestChunks o.now (pathName p) (pathStem p) n)))).addLog
      ("Created build info file: " ++ showPath infoFilePath),
    ?_, ?_, ?_, ?_, ?_, ?_, ?_, ?_⟩
  · simp only [create_artifact_info, St.enter_fs, h]
  · simp [FS.readFile_writeFile_self]
  · simp [manifestChunks]
  · simp [manifestChunks]
  · simp [manifestChunks]
  · simp [manifestChunks]
  · simp [manifestChunks]
  · simp [manifestChunks]

/-- A concrete world holding a 3-byte compressed artifact, with stale
contents already in `build-info.txt` (to exercise the overwrite). -/
def stC8 : St :=
  ⟨⟨[(["a.img.gz"], Entry.file (FileData.bin [1, 2, 3])),
     (infoFilePath, Entry.file (FileData.text ["old"]))]⟩, [], [], [], []⟩

/-- Witness for C8: emitting the manifest over stale contents leaves exactly
the report for the 3-byte artifact, including its size line. -/
theorem claim_C8_witness :
    (Res.finalSt (create_artifact_info oAllOk ["a.img.gz"] stC8)).fs.readFile infoFilePath =
      some (FileData.text (manifestChunks oAllOk.now (pathName ["a.img.gz"])
        (pathStem ["a.img.gz"]) 3)) ∧
    ("Image Size: " ++ fmtMB 3 ++ " MB\n") ∈
      manifestChunks oAllOk.now (pathName ["a.img.gz"]) (pathStem ["a.img.gz"]) 3 := by
  obtain ⟨s', h1, h2, -, h4, -⟩ := claim_C8 oAllOk stC8 ["a.img.gz"] 3 rfl
  rw [h1]
  exact ⟨h2, h4⟩

/-! ## C5: stale-artifact cleanup in Image Assembly -/

/-- Partial-evaluation equation for `build_grub_uefi_image` when the build
directory and a stale image both exist. -/
theorem build_grub_eval_stale (o : Oracle) (s : St)
    (hb : s.fs.pathExists buildDir = true)
    (hg : s.fs.pathExists grubImagePath = true) :
    build_grub_uefi_image o s =
      (run_command o ninjaCmd buildDir
        ((((s.enter "assemble").addLog "Building GRUB UEFI disk image...").addLog
          "Removing existing GRUB UEFI image...").setFs (s.fs.erase grubImagePath))).bind
        (fun _ t =>
          if t.fs.pathExists grubImagePath then
            match t.fs.sizeAt grubImagePath with
            | none => Res.raise "StatError" t
            | some n => Res.ok ⟨⟩
                (t.addLog ("GRUB UEFI image built successfully (" ++ fmtMB n ++ " MB)"))
          else Res.exit 1 (t.addLog "ERROR: GRUB UEFI image was not created!")) := by
  simp only [build_grub_uefi_image, St.enter_fs, St.addLog_fs, hb, hg, if_true]

/-- **C5.** When a disk image already exists at the expected path and the
build directory exists, Image Assembly deletes the image first: the
packaging command is handed a filesystem in which the image is absent.  The
post-build check afterwards still requires the image: success implies it
exists again, and if the packaging command leaves it absent the stage exits
with status 1. -/
theorem claim_C5 (o : Oracle) (s : St)
    (hb : s.fs.pathExists buildDir = true)
    (hg : s.fs.pathExists grubImagePath = true) :
    ((Res.finalSt (build_grub_uefi_image o s)).calls =
      s.calls ++ [⟨ninjaCmd, buildDir, s.fs.erase grubImagePath⟩]) ∧
    ((s.fs.erase grubImagePath).pathExists grubImagePath = false) ∧
    (∀ a s', build_grub_uefi_image o s = Res.ok a s' →
      s'.fs.pathExists grubImagePath = true) ∧
    ((o.exec ninjaCmd buildDir (s.fs.erase grubImagePath)).fsAfter.pathExists
        grubImagePath = false →
      ∃ s', build_grub_uefi_image o s = Res.exit 1 s') := by
  rw [build_grub_eval_stale o s hb hg]
  by_cases hc : (o.exec ninjaCmd buildDir (s.fs.erase grubImagePath)).exitCode = 0
  · rw [run_command_ok o ninjaCmd buildDir _ (by simpa using hc)]
    simp only [Res.bind, St.addPrint_fs, St.setFs_fs, St.addLog_fs]
    by_cases hex :
        (o.exec ninjaCmd buildDir (s.fs.erase grubImagePath)).fsAfter.pathExists grubImagePath
    · rw [if_pos (by simpa using hex)]
      rcases hsz : (o.exec ninjaCmd buildDir
          (s.fs.erase grubImagePath)).fsAfter.sizeAt grubImagePath with - | n
      · simp only [hsz]
        refine ⟨by simp, FS.pathExists_erase_self s.fs grubImagePath, ?_, ?_⟩
        · intro a s' hok
          exact absurd hok (by simp)
        · intro hfalse
          rw [hex] at hfalse
          exact absurd hfalse (by simp)
      · simp only [hsz]
        refine ⟨by simp, FS.pathExists_erase_self s.fs grubImagePath, ?_, ?_⟩
        · intro a s' hok
          have := (Res.ok.injEq _ _ _ _).mp hok
          rw [← this.2]
          simpa using hex
        · intro hfalse
          rw [hex] at hfalse
          exact absurd hfalse (by simp)
    · rw [if_neg (by simpa using hex)]
      refine ⟨by simp, FS.pathExists_erase_self s.fs grubImagePath, ?_, ?_⟩
      · intro a s' hok
        exact absurd hok (by simp)
      · intro hfalse
        exact ⟨_, rfl⟩
  · rw [run_command_fail o ninjaCmd buildDir _ (by simpa using hc)]
    simp only [Res.bind]
    refine ⟨by simp, FS.pathExists_erase_self s.fs grubImagePath, ?_, ?_⟩
    · intro a s' hok
      exact absurd hok (by simp)
    · intro hfalse
      exact ⟨_, rfl⟩

/-- A concrete world with the build directory and a stale disk image. -/
def stC5 : St :=
  ⟨⟨[(buildDir, Entry.dir), (grubImagePath, Entry.file (FileData.bin [7]))]⟩, [], [], [], []⟩

/-- Witness for C5: with a stale image and a packaging command that leaves
the filesystem unchanged, the command is handed the image-free filesystem
and the post-check then fails the stage. -/
theorem claim_C5_witness :
    (Res.finalSt (build_grub_uefi_image oAllOk stC5)).calls =
      [⟨ninjaCmd, buildDir, stC5.fs.erase grubImagePath⟩] ∧
    Res.exitCode? (build_grub_uefi_image oAllOk stC5) = some 1 := by
  have h := claim_C5 oAllOk stC5 rfl rfl
  refine ⟨by simpa [stC5] using h.1, ?_⟩
  obtain ⟨s', hs⟩ := h.2.2.2 (by decide)
  rw [hs]
  rfl

/-! ## C4: post-condition verification in Image Assembly -/

/-- **C4.** If the packaging command exits with status 0 but the image file
does not exist afterwards, Image Assembly logs the distinct
"was not created" failure and the rest of the driver exits with status 1
without the Compression or Manifest stages running. -/
theorem claim_C4 (o : Oracle) (s : St)
    (hb : s.fs.pathExists buildDir = true)
    (hg : s.fs.pathExists grubImagePath = false)
    (hc : (o.exec ninjaCmd buildDir s.fs).exitCode = 0)
    (hex : (o.exec ninjaCmd buildDir s.fs).fsAfter.pathExists grubImagePath = false)
    (he : "compress" ∉ s.entered) (hm : "manifest" ∉ s.entered) :
    ∃ s', tailFromAssemble o s = Res.exit 1 s' ∧
      "ERROR: GRUB UEFI image was not created!" ∈ s'.log ∧
      "compress" ∉ s'.entered ∧ "manifest" ∉ s'.entered := by
  have heval : tailFromAssemble o s = Res.exit 1
      (((((((s.enter "assemble").addLog "Building GRUB UEFI disk image...").addLog
        ("Running: " ++ ninjaCmd)).addCall ⟨ninjaCmd, buildDir, s.fs⟩).setFs
        (o.exec ninjaCmd buildDir s.fs).fsAfter).addPrint
        (o.exec ninjaCmd buildDir s.fs).output).addLog
        "ERROR: GRUB UEFI image was not created!") := by
    simp only [tailFromAssemble, build_grub_uefi_image, St.enter_fs, St.addLog_fs, hb, hg,
      Bool.false_eq_true, if_false, if_true]
    rw [run_command_ok o ninjaCmd buildDir _ (by simpa using hc)]
    simp only [Res.bind, St.addPrint_fs, St.setFs_fs, St.addCall_fs, St.addLog_fs, St.enter_fs,
      hex, Bool.false_eq_true, if_false]
  exact ⟨_, heval, by simp, by simp [he], by simp [hm]⟩

/-- A concrete world with only the build directory (no image). -/
def stC4 : St := ⟨⟨[(buildDir, Entry.dir)]⟩, [], [], [], []⟩

/-- Witness for C4: a packaging command that exits 0 without creating the
image makes the rest of the driver exit 1, with neither Compression nor
Manifest Emission entered. -/
theorem claim_C4_witness :
    Res.exitCode? (tailFromAssemble oAllOk stC4) = some 1 ∧
    "compress" ∉ (Res.finalSt (tailFromAssemble oAllOk stC4)).entered ∧
    "manifest" ∉ (Res.finalSt (tailFromAssemble oAllOk stC4)).entered := by
  obtain ⟨s', h1, -, h3, h4⟩ := claim_C4 oAllOk stC4 rfl rfl rfl rfl
    (by simp [stC4]) (by simp [stC4])
  rw [h1]
  exact ⟨rfl, by simpa using h3, by simpa using h4⟩

/-! ## More filesystem corollaries -/

theorem FS.readBin_writeFile_ne (fs : FS) {p q : FPath} (d : FileData) (h : p ≠ q) :
    (fs.writeFile q d).readBin p = fs.readBin p := by
  simp [FS.readBin, FS.readFile_writeFile_ne fs d h]

theorem FS.readBin_erase_ne (fs : FS) {p q : FPath} (h : p ≠ q) :
    (fs.erase q).readBin p = fs.readBin p := by
  simp [FS.readBin, FS.readFile_erase_ne fs h]

theorem FS.sizeAt_writeFile_self (fs : FS) (p : FPath) (b : List Nat) :
    (fs.writeFile p (FileData.bin b)).sizeAt p = some b.length := by
  simp [FS.sizeAt, FS.readBin_writeFile_self]

theorem FS.sizeAt_erase_ne (fs : FS) {p q : FPath} (h : p ≠ q) :
    (fs.erase q).sizeAt p = fs.sizeAt p := by
  simp [FS.sizeAt, FS.readBin_erase_ne fs h]

theorem FS.pathExists_of_readBin {fs : FS} {p : FPath} {b : List Nat}
    (h : fs.readBin p = some b) : fs.pathExists p = true := by
  rcases hl : fs.lookup p with - | e
  · simp only [FS.readBin, FS.readFile, hl] at h
    exact absurd h (by simp)
  · simp [FS.pathExists, hl]

/-! ## C3: compression correctness -/

/-- **C3.** For an uncompressed image of any content, if the Compression
stage completes successfully then: the date-stamped uncompressed copy no
longer exists, the compressed `.gz` file exists in the working directory
and holds the gzip stream of the image, decompressing it reproduces the
original bytes (given the gzip codec's round-trip law), and the original
image in the build output tree is unchanged. -/
theorem claim_C3 (o : Oracle) (s : St) (bytes : List Nat)
    (h : s.fs.readBin grubImagePath = some bytes)
    (hrt : ∀ b, o.gunzip (o.gzip b) = b) :
    ∀ p s', compress_image o s = Res.ok p s' →
      p = compressedImagePath o.today ∧
      s'.fs.pathExists (outputImagePath o.today) = false ∧
      s'.fs.readBin (compressedImagePath o.today) = some (o.gzip bytes) ∧
      (∃ cb, s'.fs.readBin (compressedImagePath o.today) = some cb ∧ o.gunzip cb = bytes) ∧
      s'.fs.readBin grubImagePath = some bytes := by
  intro p s' hres
  have hex : s.fs.pathExists grubImagePath = true := FS.pathExists_of_readBin h
  have hgo : compressedImagePath o.today ≠ outputImagePath o.today :=
    Ne.symm (outputImagePath_ne_compressed o.today)
  by_cases h0 : bytes.length = 0
  · simp only [compress_image, St.enter_fs, St.addLog_fs, St.setFs_fs, hex, if_true, h,
      FS.readBin_writeFile_self, FS.sizeAt_erase_ne _ hgo, FS.sizeAt_writeFile_self,
      h0, if_true] at hres
    exact Res.noConfusion hres
  · simp only [compress_image, St.enter_fs, St.addLog_fs, St.setFs_fs, hex, if_true, h,
      FS.readBin_writeFile_self, FS.sizeAt_erase_ne _ hgo, FS.sizeAt_writeFile_self,
      h0, if_false] at hres
    injection hres with hp hs
    subst hs
    refine ⟨hp.symm, ?_, ?_, ?_, ?_⟩
    · simp [FS.pathExists_erase_self]
    · simp [FS.readBin_erase_ne _ hgo, FS.readBin_writeFile_self]
    · exact ⟨o.gzip bytes,
        by simp [FS.readBin_erase_ne _ hgo, FS.readBin_writeFile_self], hrt bytes⟩
    · simp [FS.readBin_erase_ne _ (grubImagePath_ne_outputImagePath o.today),
        FS.readBin_writeFile_ne _ _ (grubImagePath_ne_compressed o.today),
        FS.readBin_writeFile_ne _ _ (grubImagePath_ne_outputImagePath o.today), h]

/-- A concrete world holding a 3-byte disk image. -/
def stC3 : St := ⟨⟨[(grubImagePath, Entry.file (FileData.bin [1, 2, 3]))]⟩, [], [], [], []⟩

/-- Witness for C3 on a 3-byte image with the identity codec: the copy is
gone, the compressed file holds the stream, and the source is unchanged. -/
theorem claim_C3_witness :
    (Res.finalSt (compress_image oAllOk stC3)).fs.pathExists
      (outputImagePath oAllOk.today) = false ∧
    (Res.finalSt (compress_image oAllOk stC3)).fs.readBin (compressedImagePath oAllOk.today) =
      some (oAllOk.gzip [1, 2, 3]) ∧
    (Res.finalSt (compress_image oAllOk stC3)).fs.readBin grubImagePath = some [1, 2, 3] := by
  have hres : compress_image oAllOk stC3 =
      Res.ok (compressedImagePath oAllOk.today)
        (Res.finalSt (compress_image oAllOk stC3)) := rfl
  obtain ⟨-, h2, h3, -, h5⟩ := claim_C3 oAllOk stC3 [1, 2, 3] rfl (fun b => rfl) _ _ hres
  exact ⟨h2, h3, h5⟩

/-! ## C9: zero-byte image causes an uncaught `ZeroDivisionError` -/

/-- **C9.** With a zero-byte image at the expected path, the Compression
stage raises `ZeroDivisionError` (the size-reduction computation divides by
the original size) after the compressed file has been written and the
uncompressed copy deleted; the Manifest stage is never entered, and the
driver's handler converts the exception into a `FATAL ERROR` log line and
exit status 1. -/
theorem claim_C9 (o : Oracle) (s : St)
    (h : s.fs.readBin grubImagePath = some ([] : List Nat))
    (hm : "manifest" ∉ s.entered) :
    ∃ s', compress_image o s = Res.raise "ZeroDivisionError" s' ∧
      s'.fs.readBin (compressedImagePath o.today) = some (o.gzip []) ∧
      s'.fs.pathExists (outputImagePath o.today) = false ∧
      "manifest" ∉ s'.entered ∧
      (∀ s0, pipeline o s0 = Res.raise "ZeroDivisionError" s' →
        run o s0 = Res.exit 1 (s'.addLog ("FATAL ERROR: " ++ "ZeroDivisionError"))) := by
  have hex : s.fs.pathExists grubImagePath = true := FS.pathExists_of_readBin h
  have hgo : compressedImagePath o.today ≠ outputImagePath o.today :=
    Ne.symm (outputImagePath_ne_compressed o.today)
  rcases hres : compress_image o s with ⟨p, s'⟩ | ⟨c, s'⟩ | ⟨e, s'⟩
  · have hres2 := hres
    simp only [compress_image, St.enter_fs, St.addLog_fs, St.setFs_fs, hex, if_true, h,
      FS.readBin_writeFile_self, FS.sizeAt_erase_ne _ hgo, FS.sizeAt_writeFile_self,
      List.length_nil, if_true] at hres2
    exact Res.noConfusion hres2
  · have hres2 := hres
    simp only [compress_image, St.enter_fs, St.addLog_fs, St.setFs_fs, hex, if_true, h,
      FS.readBin_writeFile_self, FS.sizeAt_erase_ne _ hgo, FS.sizeAt_writeFile_self,
      List.length_nil, if_true] at hres2
    exact Res.noConfusion hres2
  · have hres2 := hres
    simp only [compress_image, St.enter_fs, St.addLog_fs, St.setFs_fs, hex, if_true, h,
      FS.readBin_writeFile_self, FS.sizeAt_erase_ne _ hgo, FS.sizeAt_writeFile_self,
      List.length_nil, if_true] at hres2
    injection hres2 with he hs
    refine ⟨s', ?_, ?_, ?_, ?_, ?_⟩
    · rw [he]
    · rw [← hs]
      simp [FS.readBin_erase_ne _ hgo, FS.readBin_writeFile_self]
    · rw [← hs]
      simp [FS.pathExists_erase_self]
    · rw [← hs]
      simpa using hm
    · intro s0 hp
      simp only [run, hp]

/-- The exception name, when the computation ended in a raised exception. -/
def Res.excName? {α : Type} : Res α → Option String
  | Res.raise e _ => some e
  | _ => none

/-- A concrete world holding a zero-byte disk image. -/
def stC9 : St := ⟨⟨[(grubImagePath, Entry.file (FileData.bin []))]⟩, [], [], [], []⟩

/-- Witness for C9: on a zero-byte image the stage raises
`ZeroDivisionError`, with the compressed file written, the copy gone, and
the Manifest stage never entered. -/
theorem claim_C9_witness :
    Res.excName? (compress_image oAllOk stC9) = some "ZeroDivisionError" ∧
    (Res.finalSt (compress_image oAllOk stC9)).fs.readBin (compressedImagePath oAllOk.today) =
      some (oAllOk.gzip []) ∧
    (Res.finalSt (compress_image oAllOk stC9)).fs.pathExists
      (outputImagePath oAllOk.today) = false ∧
    "manifest" ∉ (Res.finalSt (compress_image oAllOk stC9)).entered := by
  obtain ⟨s', h1, h2, h3, h4, -⟩ := claim_C9 oAllOk stC9 rfl (by simp [stC9])
  rw [h1]
  exact ⟨rfl, h2, h3, by simpa using h4⟩

/-! ## Stage shape lemmas (for the fail-fast pipeline property C1)

Each stage either returns normally, terminates via `sys.exit 1`, or raises;
in every case the ghost `entered` trace grows by exactly the stage's tag. -/

/-- The canonical stage order of the driver. -/
def stageOrder : List String :=
  ["clone", "deps", "toolchain", "artifact", "assemble", "compress", "manifest"]

theorem run_command_shape (o : Oracle) (cmd : String) (cwd : FPath) (s : St) :
    (∃ v s', run_command o cmd cwd s = Res.ok v s' ∧ s'.entered = s.entered ∧
      (o.exec cmd cwd s.fs).exitCode = 0) ∨
    (∃ s', run_command o cmd cwd s = Res.exit 1 s' ∧ s'.entered = s.entered) := by
  by_cases hc : (o.exec cmd cwd s.fs).exitCode = 0
  · exact Or.inl ⟨_, _, run_command_ok o cmd cwd s hc, by simp, hc⟩
  · exact Or.inr ⟨_, run_command_fail o cmd cwd s hc, by simp⟩

theorem clone_shape (o : Oracle) (s : St) :
    (∃ s', clone_repository o s = Res.ok PUnit.unit s' ∧
      s'.entered = s.entered ++ ["clone"]) ∨
    (∃ s', clone_repository o s = Res.exit 1 s' ∧ s'.entered = s.entered ++ ["clone"]) := by
  by_cases hex : s.fs.pathExists serenityDir
  · refine Or.inl ⟨((s.enter "clone").addLog "Cloning SerenityOS repository...").addLog
      "Repository already exists, skipping clone", ?_, by simp⟩
    simp [clone_repository, hex]
  · rcases run_command_shape o gitCloneCmd []
        ((s.enter "clone").addLog "Cloning SerenityOS repository...") with
      ⟨v, s2, he, hent, -⟩ | ⟨s2, he, hent⟩
    · refine Or.inl ⟨s2.addLog "Repository cloned successfully", ?_, by simp [hent]⟩
      simp only [clone_repository, St.enter_fs, St.addLog_fs]
      rw [if_neg (by simpa using hex), he]
      rfl
    · refine Or.inr ⟨s2, ?_, by simp [hent]⟩
      simp only [clone_repository, St.enter_fs, St.addLog_fs]
      rw [if_neg (by simpa using hex), he]
      rfl

theorem install_shape (o : Oracle) (s : St) :
    (∃ s', install_dependencies o s = Res.ok PUnit.unit s' ∧
      s'.entered = s.entered ++ ["deps"]) ∨
    (∃ s', install_dependencies o s = Res.exit 1 s' ∧ s'.entered = s.entered ++ ["deps"]) ∨
    (∃ e s', install_dependencies o s = Res.raise e s' ∧
      s'.entered = s.entered ++ ["deps"]) := by
  by_cases hci : envTruthy o.env "CI"
  · refine Or.inl ⟨(((s.enter "deps").addLog "Installing system dependencies...").addLog
      "Running in CI environment - skipping dependency installation").addLog
      "Dependencies should be installed by GitHub Actions workflow", ?_, by simp⟩
    simp [install_dependencies, hci]
  · rcases run_command_shape o "sudo apt-get update" []
        (((s.enter "deps").addLog "Installing system dependencies...").addLog
          "Updating package lists...") with ⟨v1, s2, he1, hent1, -⟩ | ⟨s2, he1, hent1⟩
    · rcases run_command_shape o aptInstallCmd []
          (s2.addLog ("Installing " ++ toString depList.length ++ " packages...")) with
        ⟨v2, s4, he2, hent2, -⟩ | ⟨s4, he2, hent2⟩
      · by_cases hpr : (o.exec "gcc-14 --version" [] s4.fs).exitCode = 0
        · rcases hfl : firstLine (o.exec "gcc-14 --version" [] s4.fs).output with - | l
          · refine Or.inr (Or.inr ⟨"IndexError",
              ((s4.addLog "Verifying GCC 14 installation...").addCall
                ⟨"gcc-14 --version", [], s4.fs⟩).setFs
                (o.exec "gcc-14 --version" [] s4.fs).fsAfter, ?_,
              by simp [hent2, hent1]⟩)
            simp only [install_dependencies, St.enter_fs, St.addLog_fs]
            rw [if_neg (by simpa using hci), he1]
            simp only [Res.bind]
            rw [he2]
            simp only [Res.bind, St.addLog_fs]
            rw [if_pos hpr]
            simp only [hfl]
          · refine Or.inl ⟨(((((s4.addLog "Verifying GCC 14 installation...").addCall
                ⟨"gcc-14 --version", [], s4.fs⟩).setFs
                (o.exec "gcc-14 --version" [] s4.fs).fsAfter).addLog
                ("GCC 14 verified: " ++ l)).addLog
                "Dependencies installed successfully"), ?_, by simp [hent2, hent1]⟩
            simp only [install_dependencies, St.enter_fs, St.addLog_fs]
            rw [if_neg (by simpa using hci), he1]
            simp only [Res.bind]
            rw [he2]
            simp only [Res.bind, St.addLog_fs]
            rw [if_pos hpr]
            simp only [hfl]
        · by_cases hy : strLower o.stdinLine = "y"
          · refine Or.inl ⟨(((((s4.addLog "Verifying GCC 14 installation...").addCall
                ⟨"gcc-14 --version", [], s4.fs⟩).setFs
                (o.exec "gcc-14 --version" [] s4.fs).fsAfter).addLog
                "WARNING: GCC 14 not found. SerenityOS requires GCC 14 or Clang 17+").addLog
                "You may need to install from ubuntu-toolchain-r/test PPA").addLog
                "Dependencies installed successfully", ?_, by simp [hent2, hent1]⟩
            simp only [install_dependencies, St.enter_fs, St.addLog_fs]
            rw [if_neg (by simpa using hci), he1]
            simp only [Res.bind]
            rw [he2]
            simp only [Res.bind, St.addLog_fs]
            rw [if_neg hpr, if_pos hy]
          · refine Or.inr (Or.inl ⟨((((s4.addLog "Verifying GCC 14 installation...").addCall
                ⟨"gcc-14 --version", [], s4.fs⟩).setFs
                (o.exec "gcc-14 --version" [] s4.fs).fsAfter).addLog
                "WARNING: GCC 14 not found. SerenityOS requires GCC 14 or Clang 17+").addLog
                "You may need to install from ubuntu-toolchain-r/test PPA", ?_,
              by simp [hent2, hent1]⟩)
            simp only [install_dependencies, St.enter_fs, St.addLog_fs]
            rw [if_neg (by simpa using hci), he1]
            simp only [Res.bind]
            rw [he2]
            simp only [Res.bind, St.addLog_fs]
            rw [if_neg hpr, if_neg hy]
      · refine Or.inr (Or.inl ⟨s4, ?_, by simp [hent2, hent1]⟩)
        simp only [install_dependencies, St.enter_fs, St.addLog_fs]
        rw [if_neg (by simpa using hci), he1]
        simp only [Res.bind]
        rw [he2]
    · refine Or.inr (Or.inl ⟨s2, ?_, by simp [hent1]⟩)
      simp only [install_dependencies, St.enter_fs, St.addLog_fs]
      rw [if_neg (by simpa using hci), he1]
      rfl

theorem toolchain_shape (o : Oracle) (s : St) :
    (∃ s', build_toolchain o s = Res.ok PUnit.unit s' ∧
      s'.entered = s.entered ++ ["toolchain"]) ∨
    (∃ s', build_toolchain o s = Res.exit 1 s' ∧ s'.entered = s.entered ++ ["toolchain"]) := by
  rcases run_command_shape o "./Toolchain/BuildIt.sh" serenityDir
      (((s.enter "toolchain").addLog "Building/updating SerenityOS toolchain...").addLog
        "This may take a while on first run...") with ⟨v, s2, he, hent, -⟩ | ⟨s2, he, hent⟩
  · refine Or.inl ⟨s2.addLog "Toolchain ready", ?_, by simp [hent]⟩
    simp only [build_toolchain]
    rw [he]
    rfl
  · refine Or.inr ⟨s2, ?_, by simp [hent]⟩
    simp only [build_toolchain]
    rw [he]
    rfl

theorem serenity_shape (o : Oracle) (s : St) :
    (∃ s', build_serenity o s = Res.ok PUnit.unit s' ∧
      s'.entered = s.entered ++ ["artifact"]) ∨
    (∃ s', build_serenity o s = Res.exit 1 s' ∧ s'.entered = s.entered ++ ["artifact"]) := by
  rcases run_command_shape o "./Meta/serenity.sh image x86_64" serenityDir
      (((s.enter "artifact").addLog "Building SerenityOS...").addLog
        "Running: Meta/serenity.sh image x86_64") with ⟨v, s2, he, hent, -⟩ | ⟨s2, he, hent⟩
  · refine Or.inl ⟨s2.addLog "SerenityOS build and install completed successfully", ?_,
      by simp [hent]⟩
    simp only [build_serenity]
    rw [he]
    rfl
  · refine Or.inr ⟨s2, ?_, by simp [hent]⟩
    simp only [build_serenity]
    rw [he]
    rfl

theorem assemble_shape (o : Oracle) (s : St) :
    (∃ s', build_grub_uefi_image o s = Res.ok PUnit.unit s' ∧
      s'.entered = s.entered ++ ["assemble"] ∧
      ∃ fs1, (o.exec ninjaCmd buildDir fs1).exitCode = 0) ∨
    (∃ s', build_grub_uefi_image o s = Res.exit 1 s' ∧
      s'.entered = s.entered ++ ["assemble"]) ∨
    (∃ e s', build_grub_uefi_image o s = Res.raise e s' ∧
      s'.entered = s.entered ++ ["assemble"]) := by
  by_cases hb : s.fs.pathExists buildDir
  · by_cases hg : s.fs.pathExists grubImagePath
    · rcases run_command_shape o ninjaCmd buildDir
          ((((s.enter "assemble").addLog "Building GRUB UEFI disk image...").addLog
            "Removing existing GRUB UEFI image...").setFs (s.fs.erase grubImagePath)) with
        ⟨v, s2, he, hent, hcode⟩ | ⟨s2, he, hent⟩
      · by_cases hex2 : s2.fs.pathExists grubImagePath
        · rcases hsz : s2.fs.sizeAt grubImagePath with - | n
          · refine Or.inr (Or.inr ⟨"StatError", s2, ?_, by simp [hent]⟩)
            simp only [build_grub_uefi_image, St.enter_fs, St.addLog_fs]
            rw [if_pos (by simpa using hb), if_pos (by simpa using hg), he]
            simp only [Res.bind]
            rw [if_pos (by simpa using hex2)]
            simp only [hsz]
          · refine Or.inl ⟨s2.addLog
              ("GRUB UEFI image built successfully (" ++ fmtMB n ++ " MB)"), ?_,
              by simp [hent], ⟨_, hcode⟩⟩
            simp only [build_grub_uefi_image, St.enter_fs, St.addLog_fs]
            rw [if_pos (by simpa using hb), if_pos (by simpa using hg), he]
            simp only [Res.bind]
            rw [if_pos (by simpa using hex2)]
            simp only [hsz]
        · refine Or.inr (Or.inl ⟨s2.addLog "ERROR: GRUB UEFI image was not created!", ?_,
            by simp [hent]⟩)
          simp only [build_grub_uefi_image, St.enter_fs, St.addLog_fs]
          rw [if_pos (by simpa using hb), if_pos (by simpa using hg), he]
          simp only [Res.bind]
          rw [if_neg (by simpa using hex2)]
      · refine Or.inr (Or.inl ⟨s2, ?_, by simp [hent]⟩)
        simp only [build_grub_uefi_image, St.enter_fs, St.addLog_fs]
        rw [if_pos (by simpa using hb), if_pos (by simpa using hg), he]
        rfl
    · rcases run_command_shape o ninjaCmd buildDir
          ((s.enter "assemble").addLog "Building GRUB UEFI disk image...") with
        ⟨v, s2, he, hent, hcode⟩ | ⟨s2, he, hent⟩
      · by_cases hex2 : s2.fs.pathExists grubImagePath
        · rcases hsz : s2.fs.sizeAt grubImagePath with - | n
          · refine Or.inr (Or.inr ⟨"StatError", s2, ?_, by simp [hent]⟩)
            simp only [build_grub_uefi_image, St.enter_fs, St.addLog_fs]
            rw [if_pos (by simpa using hb), if_neg (by simpa using hg), he]
            simp only [Res.bind]
            rw [if_pos (by simpa using hex2)]
            simp only [hsz]
          · refine Or.inl ⟨s2.addLog
              ("GRUB UEFI image built successfully (" ++ fmtMB n ++ " MB)"), ?_,
              by simp [hent], ⟨_, hcode⟩⟩
            simp only [build_grub_uefi_image, St.enter_fs, St.addLog_fs]
            rw [if_pos (by simpa using hb), if_neg (by simpa using hg), he]
            simp only [Res.bind]
            rw [if_pos (by simpa using hex2)]
            simp only [hsz]
        · refine Or.inr (Or.inl ⟨s2.addLog "ERROR: GRUB UEFI image was not created!", ?_,
            by simp [hent]⟩)
          simp only [build_grub_uefi_image, St.enter_fs, St.addLog_fs]
          rw [if_pos (by simpa using hb), if_neg (by simpa using hg), he]
          simp only [Res.bind]
          rw [if_neg (by simpa using hex2)]
      · refine Or.inr (Or.inl ⟨s2, ?_, by simp [hent]⟩)
        simp only [build_grub_uefi_image, St.enter_fs, St.addLog_fs]
        rw [if_pos (by simpa using hb), if_neg (by simpa using hg), he]
        rfl
  · refine Or.inr (Or.inl ⟨((s.enter "assemble").addLog
      "Building GRUB UEFI disk image...").addLog
      ("ERROR: Build directory not found: " ++ showPath buildDir), ?_, by simp⟩)
    simp only [build_grub_uefi_image, St.enter_fs, St.addLog_fs]
    rw [if_neg (by simpa using hb)]

theorem compress_shape (o : Oracle) (s : St) :
    (∃ p s', compress_image o s = Res.ok p s' ∧ s'.entered = s.entered ++ ["compress"] ∧
      ∃ n, s'.fs.sizeAt p = some n) ∨
    (∃ s', compress_image o s = Res.exit 1 s' ∧ s'.entered = s.entered ++ ["compress"]) ∨
    (∃ e s', compress_image o s = Res.raise e s' ∧
      s'.entered = s.entered ++ ["compress"]) := by
  have hgo : compressedImagePath o.today ≠ outputImagePath o.today :=
    Ne.symm (outputImagePath_ne_compressed o.today)
  by_cases hpe : s.fs.pathExists grubImagePath
  · rcases hrb : s.fs.readBin grubImagePath with - | bytes
    · refine Or.inr (Or.inr ⟨"IsADirectoryError",
        (s.enter "compress").addLog "Compressing disk image...", ?_, by simp⟩)
      simp only [compress_image, St.enter_fs, St.addLog_fs]
      rw [if_pos (by simpa using hpe)]
      simp only [hrb]
    · by_cases h0 : bytes.length = 0
      · refine Or.inr (Or.inr ⟨"ZeroDivisionError",
          ((((((s.enter "compress").addLog "Compressing disk image...").addLog
            ("Original image size: " ++ fmtMB bytes.length ++ " MB")).addLog
            ("Copying image to " ++ showPath (outputImagePath o.today))).setFs
            (s.fs.writeFile (outputImagePath o.today) (FileData.bin bytes))).addLog
            ("Compressing to " ++ showPath (compressedImagePath o.today) ++
              " (this may take a moment)...")).setFs
            ((s.fs.writeFile (outputImagePath o.today) (FileData.bin bytes)).writeFile
              (compressedImagePath o.today) (FileData.bin (o.gzip bytes))) |>.setFs
            (((s.fs.writeFile (outputImagePath o.today) (FileData.bin bytes)).writeFile
              (compressedImagePath o.today) (FileData.bin (o.gzip bytes))).erase
              (outputImagePath o.today)), ?_, by simp⟩)
        simp only [compress_image, St.enter_fs, St.addLog_fs, St.setFs_fs]
        rw [if_pos (by simpa using hpe)]
        simp only [hrb, FS.readBin_writeFile_self, FS.sizeAt_erase_ne _ hgo,
          FS.sizeAt_writeFile_self]
        rw [if_pos h0]
      · refine Or.inl ⟨compressedImagePath o.today,
          (((((((s.enter "compress").addLog "Compressing disk image...").addLog
            ("Original image size: " ++ fmtMB bytes.length ++ " MB")).addLog
            ("Copying image to " ++ showPath (outputImagePath o.today))).setFs
            (s.fs.writeFile (outputImagePath o.today) (FileData.bin bytes))).addLog
            ("Compressing to " ++ showPath (compressedImagePath o.today) ++
              " (this may take a moment)...")).setFs
            ((s.fs.writeFile (outputImagePath o.today) (FileData.bin bytes)).writeFile
              (compressedImagePath o.today) (FileData.bin (o.gzip bytes))) |>.setFs
            (((s.fs.writeFile (outputImagePath o.today) (FileData.bin bytes)).writeFile
              (compressedImagePath o.today) (FileData.bin (o.gzip bytes))).erase
              (outputImagePath o.today))).addLog
            ("Compressed image size: " ++ fmtMB (o.gzip bytes).length ++ " MB (" ++
              fmtRatio bytes.length (o.gzip bytes).length ++ "% reduction)") |>.addLog
            ("Output file: " ++ showPath (compressedImagePath o.today)), ?_, by simp,
          ⟨(o.gzip bytes).length,
            by simp [FS.sizeAt_erase_ne _ hgo, FS.sizeAt_writeFile_self]⟩⟩
        simp only [compress_image, St.enter_fs, St.addLog_fs, St.setFs_fs]
        rw [if_pos (by simpa using hpe)]
        simp only [hrb, FS.readBin_writeFile_self, FS.sizeAt_erase_ne _ hgo,
          FS.sizeAt_writeFile_self]
        rw [if_neg h0]
  · refine Or.inr (Or.inl ⟨((s.enter "compress").addLog "Compressing disk image...").addLog
      ("ERROR: Disk image not found: " ++ showPath grubImagePath), ?_, by simp⟩)
    simp only [compress_image, St.enter_fs, St.addLog_fs]
    rw [if_neg (by simpa using hpe)]

theorem manifest_ok (o : Oracle) (p : FPath) (s : St) (n : Nat)
    (h : s.fs.sizeAt p = some n) :
    ∃ s', create_artifact_info o p s = Res.ok PUnit.unit s' ∧
      s'.entered = s.entered ++ ["manifest"] := by
  refine ⟨((s.enter "manifest").setFs (s.fs.writeFile infoFilePath
      (FileData.text (manifestChunks o.now (pathName p) (pathStem p) n)))).addLog
      ("Created build info file: " ++ showPath infoFilePath), ?_, by simp⟩
  simp only [create_artifact_info, St.enter_fs, h]

/-- Pipeline composition: either every stage ran (in order) and the run
succeeded, or some stage failed or raised, the `entered` trace is the
corresponding prefix of the stage order, and no later stage ran.  Reaching
the Compression stage requires the packaging command to have succeeded at
least once. -/
theorem pipeline_cases (o : Oracle) (s : St) (h0 : s.entered = []) :
    (∃ s', pipeline o s = Res.ok PUnit.unit s' ∧ s'.entered = stageOrder ∧
      ∃ fs1, (o.exec ninjaCmd buildDir fs1).exitCode = 0) ∨
    (∃ k s', 1 ≤ k ∧ k ≤ 6 ∧ pipeline o s = Res.exit 1 s' ∧
      s'.entered = stageOrder.take k ∧
      (6 ≤ k → ∃ fs1, (o.exec ninjaCmd buildDir fs1).exitCode = 0)) ∨
    (∃ k e s', 1 ≤ k ∧ k ≤ 6 ∧ pipeline o s = Res.raise e s' ∧
      s'.entered = stageOrder.take k ∧
      (6 ≤ k → ∃ fs1, (o.exec ninjaCmd buildDir fs1).exitCode = 0)) := by
  rcases clone_shape o (((s.addLog sepLine).addLog "SerenityOS Builder Starting").addLog sepLine)
    with ⟨t1, he1, hn1⟩ | ⟨t1, he1, hn1⟩
  · rcases install_shape o t1 with ⟨t2, he2, hn2⟩ | ⟨t2, he2, hn2⟩ | ⟨e2, t2, he2, hn2⟩
    · rcases toolchain_shape o t2 with ⟨t3, he3, hn3⟩ | ⟨t3, he3, hn3⟩
      · rcases serenity_shape o t3 with ⟨t4, he4, hn4⟩ | ⟨t4, he4, hn4⟩
        · rcases assemble_shape o t4 with ⟨t5, he5, hn5, hnin⟩ | ⟨t5, he5, hn5⟩ |
            ⟨e5, t5, he5, hn5⟩
          · rcases compress_shape o t5 with ⟨p, t6, he6, hn6, n, hsz⟩ | ⟨t6, he6, hn6⟩ |
              ⟨e6, t6, he6, hn6⟩
            · obtain ⟨t7, he7, hn7⟩ := manifest_ok o p t6 n hsz
              refine Or.inl ⟨((((t7.addLog sepLine).addLog
                "Build completed successfully!").addLog
                ("Artifact ready: " ++ showPath p)).addLog
                "See build-info.txt for usage instructions").addLog sepLine, ?_, ?_, hnin⟩
              · simp only [pipeline, tailFromAssemble]
                rw [he1]
                simp only [Res.bind]
                rw [he2]
                simp only [Res.bind]
                rw [he3]
                simp only [Res.bind]
                rw [he4]
                simp only [Res.bind]
                rw [he5]
                simp only [Res.bind]
                rw [he6]
                simp only [Res.bind]
                rw [he7]
              · simp only [St.addLog_entered, hn7, hn6, hn5, hn4, hn3, hn2, hn1,
                  St.addLog_entered, h0]
                rfl
            · refine Or.inr (Or.inl ⟨6, t6, by omega, by omega, ?_, ?_, fun _ => hnin⟩)
              · simp only [pipeline, tailFromAssemble]
                rw [he1]
                simp only [Res.bind]
                rw [he2]
                simp only [Res.bind]
                rw [he3]
                simp only [Res.bind]
                rw [he4]
                simp only [Res.bind]
                rw [he5]
                simp only [Res.bind]
                rw [he6]
              · simp only [hn6, hn5, hn4, hn3, hn2, hn1, St.addLog_entered, h0]
                rfl
            · refine Or.inr (Or.inr ⟨6, e6, t6, by omega, by omega, ?_, ?_, fun _ => hnin⟩)
              · simp only [pipeline, tailFromAssemble]
                rw [he1]
                simp only [Res.bind]
                rw [he2]
                simp only [Res.bind]
                rw [he3]
                simp only [Res.bind]
                rw [he4]
                simp only [Res.bind]
                rw [he5]
                simp only [Res.bind]
                rw [he6]
              · simp only [hn6, hn5, hn4, hn3, hn2, hn1, St.addLog_entered, h0]
                rfl
          · refine Or.inr (Or.inl ⟨5, t5, by omega, by omega, ?_, ?_, by omega⟩)
            · simp only [pipeline, tailFromAssemble]
              rw [he1]
              simp only [Res.bind]
              rw [he2]
              simp only [Res.bind]
              rw [he3]
              simp only [Res.bind]
              rw [he4]
              simp only [Res.bind]
              rw [he5]
            · simp only [hn5, hn4, hn3, hn2, hn1, St.addLog_entered, h0]
              rfl
          · refine Or.inr (Or.inr ⟨5, e5, t5, by omega, by omega, ?_, ?_, by omega⟩)
            · simp only [pipeline, tailFromAssemble]
              rw [he1]
              simp only [Res.bind]
              rw [he2]
              simp only [Res.bind]
              rw [he3]
              simp only [Res.bind]
              rw [he4]
              simp only [Res.bind]
              rw [he5]
            · simp only [hn5, hn4, hn3, hn2, hn1, St.addLog_entered, h0]
              rfl
        · refine Or.inr (Or.inl ⟨4, t4, by omega, by omega, ?_, ?_, by omega⟩)
          · simp only [pipeline, tailFromAssemble]
            rw [he1]
            simp only [Res.bind]
            rw [he2]
            simp only [Res.bind]
            rw [he3]
            simp only [Res.bind]
            rw [he4]
          · simp only [hn4, hn3, hn2, hn1, St.addLog_entered, h0]
            rfl
      · refine Or.inr (Or.inl ⟨3, t3, by omega, by omega, ?_, ?_, by omega⟩)
        · simp only [pipeline, tailFromAssemble]
          rw [he1]
          simp only [Res.bind]
          rw [he2]
          simp only [Res.bind]
          rw [he3]
        · simp only [hn3, hn2, hn1, St.addLog_entered, h0]
          rfl
    · refine Or.inr (Or.inl ⟨2, t2, by omega, by omega, ?_, ?_, by omega⟩)
      · simp only [pipeline, tailFromAssemble]
        rw [he1]
        simp only [Res.bind]
        rw [he2]
      · simp only [hn2, hn1, St.addLog_entered, h0]
        rfl
    · refine Or.inr (Or.inr ⟨2, e2, t2, by omega, by omega, ?_, ?_, by omega⟩)
      · simp only [pipeline, tailFromAssemble]
        rw [he1]
        simp only [Res.bind]
        rw [he2]
      · simp only [hn2, hn1, St.addLog_entered, h0]
        rfl
  · refine Or.inr (Or.inl ⟨1, t1, by omega, by omega, ?_, ?_, by omega⟩)
    · simp only [pipeline, tailFromAssemble]
      rw [he1]
      rfl
    · simp only [hn1, St.addLog_entered, h0]
      rfl

/-- Lift of `pipeline_cases` through the driver's exception handler: `run`
either succeeds with all stages run in order, or exits with status 1 having
run exactly a proper prefix of the stage order. -/
theorem run_cases (o : Oracle) (s : St) (h0 : s.entered = []) :
    (∃ s', run o s = Res.ok PUnit.unit s' ∧ s'.entered = stageOrder ∧
      ∃ fs1, (o.exec ninjaCmd buildDir fs1).exitCode = 0) ∨
    (∃ k s', 1 ≤ k ∧ k ≤ 6 ∧ run o s = Res.exit 1 s' ∧ s'.entered = stageOrder.take k ∧
      (6 ≤ k → ∃ fs1, (o.exec ninjaCmd buildDir fs1).exitCode = 0)) := by
  rcases pipeline_cases o s h0 with ⟨s', he, hn, hev⟩ | ⟨k, s', h1, h6, he, hn, hev⟩ |
    ⟨k, e, s', h1, h6, he, hn, hev⟩
  · exact Or.inl ⟨s', by simp only [run, he], hn, hev⟩
  · exact Or.inr ⟨k, s', h1, h6, by simp only [run, he], hn, hev⟩
  · exact Or.inr ⟨k, s'.addLog ("FATAL ERROR: " ++ e), h1, h6, by simp only [run, he],
      by simp [hn], hev⟩

/-- **C1.** Fail-fast propagation: starting from a fresh stage trace, the
driver either completes every stage in the fixed order, or exits with the
non-zero status 1 having entered exactly a proper prefix of the stage order
(so no stage after a failed one ever executes), and it never lets an
exception escape.  In particular, if the Image Assembly packaging command
always exits with status 1, the process exits 1 and neither Compression nor
Manifest Emission is ever entered. -/
theorem claim_C1 (o : Oracle) (s : St) (h0 : s.entered = []) :
    ((∀ s', run o s = Res.ok PUnit.unit s' → s'.entered = stageOrder) ∧
     (∀ c s', run o s = Res.exit c s' → c = 1 ∧
       ∃ k, 1 ≤ k ∧ k < 7 ∧ s'.entered = stageOrder.take k) ∧
     (∀ e s', run o s ≠ Res.raise e s')) ∧
    ((∀ cwd fs1, (o.exec ninjaCmd cwd fs1).exitCode = 1) →
      ∃ s', run o s = Res.exit 1 s' ∧ "compress" ∉ s'.entered ∧
        "manifest" ∉ s'.entered) := by
  rcases run_cases o s h0 with ⟨s', he, hn, hev⟩ | ⟨k, s', h1, h6, he, hn, hev⟩
  · constructor
    · refine ⟨?_, ?_, ?_⟩
      · intro s'' h
        rw [he] at h
        injection h with h' h''
        rw [← h'']
        exact hn
      · intro c s'' h
        rw [he] at h
        exact Res.noConfusion h
      · intro e s'' h
        rw [he] at h
        exact Res.noConfusion h
    · intro hall
      obtain ⟨fs1, hc0⟩ := hev
      have hc1 := hall buildDir fs1
      omega
  · constructor
    · refine ⟨?_, ?_, ?_⟩
      · intro s'' h
        rw [he] at h
        exact Res.noConfusion h
      · intro c s'' h
        rw [he] at h
        injection h with hc hs
        exact ⟨hc.symm, ⟨k, h1, by omega, hs ▸ hn⟩⟩
      · intro e s'' h
        rw [he] at h
        exact Res.noConfusion h
    · intro hall
      have hk5 : k ≤ 5 := by
        by_contra hgt
        obtain ⟨fs1, hc0⟩ := hev (by omega)
        have hc1 := hall buildDir fs1
        omega
      refine ⟨s', he, ?_, ?_⟩
      · rw [hn]
        interval_cases k <;> decide
      · rw [hn]
        interval_cases k <;> decide

/-- Oracle for the C1 witness: the packaging command always exits 1, every
other command succeeds. -/
def oC1 : Oracle :=
  ⟨fun cmd _ fs => if cmd = ninjaCmd then ⟨1, "", fs⟩ else ⟨0, "out", fs⟩,
   [("CI", "1")], "", id, id, "20250101", "now"⟩

/-- Witness for C1: with the packaging command failing, the whole run exits
with status 1 and neither Compression nor Manifest Emission is entered. -/
theorem claim_C1_witness :
    Res.exitCode? (run oC1 st0) = some 1 ∧
    "compress" ∉ (Res.finalSt (run oC1 st0)).entered ∧
    "manifest" ∉ (Res.finalSt (run oC1 st0)).entered := by
  obtain ⟨s', he, hc, hm⟩ := (claim_C1 oC1 st0 rfl).2 (fun cwd fs1 => by simp [oC1])
  rw [he]
  exact ⟨rfl, by simpa using hc, by simpa using hm⟩
